import Mathlib

/-!
# Verification of the file-compressor command-construction contract

Shallow embedding of `src/index.ts` (razmans/file-compressor).  Each public
operation (`compressPDF`, `compressImageLossy`, `compressImageLossless`,
`compressVideo`, `compressMP3`) is modelled as a pure function over an
explicit environment `Env` that abstracts the filesystem and process layer
(`path.resolve`, `path.dirname`, `fs.access`, `execPromise`, `fs.stat`).
Each operation returns the outcome (`Except CompressError CompressResult`)
together with the list of external commands it spawned (the arguments of the
`execPromise` calls, in order), so that "before any external process is
spawned" is directly expressible.

String constants reproduce the TypeScript template literals.  JavaScript
template literals treat a backslash at end of line as a line continuation
(the newline is dropped, the surrounding literal text - including the
indentation of the next line - is kept); the multi-line FFmpeg commands
below are written as explicit concatenations of exactly those literal
chunks.
-/

namespace FileCompressor

/-- Enum `SupportedCodecs` from `src/index.ts` (values are the interpolated
strings `libx264`, `libx265`, `vp9`, `gif`). -/
inductive SupportedCodecs where
  | LIBX264
  | LIBX265
  | VP9
  | GIF
deriving DecidableEq, Repr

/-- The string value of a `SupportedCodecs` member (what `${codec}`
interpolates to). -/
def SupportedCodecs.str : SupportedCodecs → String
  | .LIBX264 => "libx264"
  | .LIBX265 => "libx265"
  | .VP9 => "vp9"
  | .GIF => "gif"

/-- Enum `VideoPresets` from `src/index.ts`. -/
inductive VideoPresets where
  | ULTRAFAST
  | SUPERFAST
  | VERYFAST
  | FASTER
  | FAST
  | MEDIUM
  | SLOW
  | SLOWER
  | VERYSLOW
deriving DecidableEq, Repr

/-- The string value of a `VideoPresets` member. -/
def VideoPresets.str : VideoPresets → String
  | .ULTRAFAST => "ultrafast"
  | .SUPERFAST => "superfast"
  | .VERYFAST => "veryfast"
  | .FASTER => "faster"
  | .FAST => "fast"
  | .MEDIUM => "medium"
  | .SLOW => "slow"
  | .SLOWER => "slower"
  | .VERYSLOW => "veryslow"

/-- Enum `SoundBitRate` from `src/index.ts`. -/
inductive SoundBitRate where
  | LOW
  | MEDIUM
  | HIGH
  | VERY_HIGH
deriving DecidableEq, Repr

/-- The string value of a `SoundBitRate` member. -/
def SoundBitRate.str : SoundBitRate → String
  | .LOW => "64k"
  | .MEDIUM => "128k"
  | .HIGH => "192k"
  | .VERY_HIGH => "320k"

/-- `scale?: { width?: number; height?: number }` of the video options. -/
structure ScaleOptions where
  width : Option Int
  height : Option Int
deriving DecidableEq, Repr

/-- The options object of `compressVideo`.  Absent fields are `none`. -/
structure VideoOptions where
  codec : Option SupportedCodecs
  crf : Option Int
  preset : Option VideoPresets
  fps : Option Int
  scale : Option ScaleOptions
deriving DecidableEq, Repr

/-- The options object of `compressMP3`.  Absent fields are `none`. -/
structure AudioOptions where
  bitrate : Option SoundBitRate
  quality : Option Int
  mono : Option Bool
deriving DecidableEq, Repr

/-- interface `CompressResult` from `src/index.ts`; `compressedSizeKB` is the
JavaScript float `stats.size / 1024`, modelled as a rational. -/
structure CompressResult where
  outputPath : String
  compressedSizeKB : ℚ
deriving DecidableEq, Repr

/-- Failure outcomes of an operation.  `validation msg` models a thrown
`new Error(msg)` from a precondition check; `accessError p` models a
rejected `fs.access` on `p`; `execError cmd` models a failed `execPromise
cmd`; `statError p` models a rejected `fs.stat p`.  (The TypeScript code
additionally rewraps some of these in context messages, e.g.
`Video compression failed: ...`; the wrapping does not change which stage
failed and is not modelled.) -/
inductive CompressError where
  | validation (msg : String)
  | accessError (p : String)
  | execError (cmd : String)
  | statError (p : String)
deriving DecidableEq, Repr

/-- The message of the image format check,
`'Unsupported file format. Use JPG, JPEG, or PNG.'`. -/
def unsupportedFormatMsg : String := "Unsupported file format. Use JPG, JPEG, or PNG."

/-- The message of the MP3 format check, `'Input file must be an MP3.'`. -/
def mp3FormatMsg : String := "Input file must be an MP3."

/-- Abstraction of the platform layer the operations call into:
`resolve`/`dirname` are `path.resolve`/`path.dirname` (pure, uninterpreted);
`accessF p` is whether `fs.access(p)` (existence, `F_OK`) succeeds;
`accessR`/`accessW` are `fs.access` with `R_OK`/`W_OK`;
`execOk cmd` is whether `execPromise cmd` succeeds;
`statSize p` is `(fs.stat p).size` in bytes after execution (`none` when the
stat call rejects). -/
structure Env where
  resolve : String → String
  dirname : String → String
  accessF : String → Bool
  accessR : String → Bool
  accessW : String → Bool
  execOk : String → Bool
  statSize : String → Option Nat

/-- Outcome of an operation: the result or error, paired with the list of
commands passed to `execPromise`, in order. -/
abbrev Outcome := Except CompressError CompressResult × List String

/-- Wrap a string in double quotes, as the `"${...}"` interpolations do. -/
def quoteArg (s : String) : String := "\"" ++ s ++ "\""

/-- Shared tail of every operation: run the synthesized command, then stat
the resolved output path and divide its byte size by 1024
(`(await fs.stat(resolvedOutputPath)).size / 1024`). -/
def runAndMeasure (env : Env) (cmd ro : String) : Outcome :=
  if env.execOk cmd then
    match env.statSize ro with
    | some sz => (.ok ⟨ro, (sz : ℚ) / 1024⟩, [cmd])
    | none => (.error (.statError ro), [cmd])
  else
    (.error (.execError cmd), [cmd])

/-- The Ghostscript command of `compressPDF` (src/index.ts line 30). -/
def gsCommand (ri ro : String) : String :=
  "gs -sDEVICE=pdfwrite -dCompatibilityLevel=1.4 -dPDFSETTINGS=/screen -dNOPAUSE -dQUIET -dBATCH -sOutputFile="
    ++ quoteArg ro ++ " " ++ quoteArg ri

/-- Operation `compressPDF` (src/index.ts lines 20-58): resolve both paths, run
Ghostscript, stat the output.  Note: no validation of any kind is performed
before `execPromise`. -/
def compressPDF (env : Env) (inputPath outputPath : String) : Outcome :=
  let ri := env.resolve inputPath
  let ro := env.resolve outputPath
  runAndMeasure env (gsCommand ri ro) ro

/-- Lower-casing as performed by `toLowerCase()` and the `/i` regex flag,
modelled character-wise with `Char.toLower` (kernel-computable, unlike
`String.toLower` which recurses on byte positions). -/
def strToLower (s : String) : String :=
  ⟨s.data.map Char.toLower⟩

/-- Suffix test as performed by `endsWith` and a `$`-anchored regex,
modelled on the character list (kernel-computable). -/
def strEndsWith (s post : String) : Bool :=
  post.data.isSuffixOf s.data

/-- The image format check `/\.(jpg|jpeg|png)$/i.test s` (true iff `s` ends,
case-insensitively, in `.jpg`, `.jpeg` or `.png`). -/
def supportedFormatsTest (s : String) : Bool :=
  strEndsWith (strToLower s) ".jpg" || strEndsWith (strToLower s) ".jpeg"
    || strEndsWith (strToLower s) ".png"

/-- The ImageMagick command of `compressImageLossy` (src/index.ts line 93). -/
def magickLossyCommand (ri : String) (quality : Int) (ro : String) : String :=
  "magick " ++ quoteArg ri ++ " -quality " ++ toString quality ++ " -strip " ++ quoteArg ro

/-- Operation `compressImageLossy` (src/index.ts lines 73-127): format check on the
resolved input, then `fs.access(input, R_OK)`, then
`fs.access(dirname output, W_OK)`, then run ImageMagick and stat.  The
source throws when `!supportedFormats.test(...)`; the branches below mirror
that guard order. -/
def compressImageLossy (env : Env) (inputPath outputPath : String)
    (quality : Int := 75) : Outcome :=
  let ri := env.resolve inputPath
  let ro := env.resolve outputPath
  let outputDir := env.dirname ro
  if supportedFormatsTest ri = false then
    (.error (.validation unsupportedFormatMsg), [])
  else if env.accessR ri = false then
    (.error (.accessError ri), [])
  else if env.accessW outputDir = false then
    (.error (.accessError outputDir), [])
  else
    runAndMeasure env (magickLossyCommand ri quality ro) ro

/-- The ImageMagick command of `compressImageLossless` (src/index.ts line
163). -/
def magickLosslessCommand (ri : String) (compressionLevel : Int) (ro : String) : String :=
  "magick " ++ quoteArg ri ++ " -strip -define png:compression-level="
    ++ toString compressionLevel ++ " " ++ quoteArg ro

/-- Operation `compressImageLossless` (src/index.ts lines 143-197): identical pipeline
to `compressImageLossy` with the lossless ImageMagick command. -/
def compressImageLossless (env : Env) (inputPath outputPath : String)
    (compressionLevel : Int := 75) : Outcome :=
  let ri := env.resolve inputPath
  let ro := env.resolve outputPath
  let outputDir := env.dirname ro
  if supportedFormatsTest ri = false then
    (.error (.validation unsupportedFormatMsg), [])
  else if env.accessR ri = false then
    (.error (.accessError ri), [])
  else if env.accessW outputDir = false then
    (.error (.accessError outputDir), [])
  else
    runAndMeasure env (magickLosslessCommand ri compressionLevel ro) ro

/-- JavaScript `x || d` on an optional number: `undefined` and `0` are falsy
and give the default. -/
def jsNumOr (x : Option Int) (d : Int) : Int :=
  match x with
  | some n => if n = 0 then d else n
  | none => d

/-- Source `const fps = options.fps ? `-r ${options.fps}` : ''` (src/index.ts
line 233): absent or `0` fps yields the empty string. -/
def videoFpsArg (fps : Option Int) : String :=
  match fps with
  | some n => if n = 0 then "" else "-r " ++ toString n
  | none => ""

/-- Source `const scale = options.scale ? `-vf scale=${w || -1}:${h || -1}` : ''`
(src/index.ts lines 234-236). -/
def videoScaleArg (scale : Option ScaleOptions) : String :=
  match scale with
  | some sc =>
      "-vf scale=" ++ toString (jsNumOr sc.width (-1)) ++ ":"
        ++ toString (jsNumOr sc.height (-1))
  | none => ""

/-- The H.264/H.265 FFmpeg template literal (src/index.ts lines 246-253),
written as its literal chunks (line continuations collapsed). -/
def mp4Command (ri : String) (codec : SupportedCodecs) (crf : Int)
    (preset : VideoPresets) (fpsArg scaleArg ro : String) : String :=
  "\n        ffmpeg -i " ++ quoteArg ri ++ " "
    ++ "        -c:v " ++ codec.str ++ " -crf " ++ toString crf
    ++ " -preset " ++ preset.str ++ " "
    ++ "        -c:a aac -b:a 128k "
    ++ "        " ++ fpsArg ++ " " ++ scaleArg ++ " "
    ++ "        -movflags +faststart "
    ++ "        " ++ quoteArg ro ++ "\n      "

/-- The VP9 FFmpeg template literal (src/index.ts lines 257-263). -/
def vp9Command (ri : String) (crf : Int) (fpsArg scaleArg ro : String) : String :=
  "\n        ffmpeg -i " ++ quoteArg ri ++ " "
    ++ "        -c:v libvpx-vp9 -crf " ++ toString crf ++ " -b:v 0 "
    ++ "        -c:a libopus -b:a 128k "
    ++ "        " ++ fpsArg ++ " " ++ scaleArg ++ " "
    ++ "        " ++ quoteArg ro ++ "\n      "

/-- The GIF FFmpeg template literal (src/index.ts lines 267-272): fixed
filter graph, no option interpolation. -/
def gifFixedCommand (ri ro : String) : String :=
  "\n        ffmpeg -i " ++ quoteArg ri ++ " "
    ++ "        -vf \"fps=15,scale=640:-1:flags=lanczos,split[s0][s1];[s0]palettegen[p];[s1][p]paletteuse\" "
    ++ "        -loop 0 "
    ++ "        " ++ quoteArg ro ++ "\n      "

/-- Command synthesis of `compressVideo` (src/index.ts lines 229-275):
defaults `codec = options.codec || LIBX264` (every enum string is truthy),
`crf = options.crf ?? (codec === VP9 ? 30 : 28)`,
`preset = options.preset || MEDIUM`, then the per-codec branch.  The
TypeScript `else throw 'Unsupported codec'` branch is unreachable for
values of the closed enum and has no counterpart here. -/
def buildVideoCommand (ri ro : String) (options : VideoOptions) : String :=
  let codec := options.codec.getD .LIBX264
  let crf := options.crf.getD (if codec = .VP9 then 30 else 28)
  let preset := options.preset.getD .MEDIUM
  let fpsArg := videoFpsArg options.fps
  let scaleArg := videoScaleArg options.scale
  match codec with
  | .LIBX264 => mp4Command ri .LIBX264 crf preset fpsArg scaleArg ro
  | .LIBX265 => mp4Command ri .LIBX265 crf preset fpsArg scaleArg ro
  | .VP9 => vp9Command ri crf fpsArg scaleArg ro
  | .GIF => gifFixedCommand ri ro

/-- Operation `compressVideo` (src/index.ts lines 212-291): resolve both paths,
`await fs.access(resolvedInputPath)` (existence only), synthesize the
FFmpeg command, run it, stat the output. -/
def compressVideo (env : Env) (inputPath outputPath : String)
    (options : VideoOptions) : Outcome :=
  let ri := env.resolve inputPath
  let ro := env.resolve outputPath
  if env.accessF ri = false then
    (.error (.accessError ri), [])
  else
    runAndMeasure env (buildVideoCommand ri ro options) ro

/-- The CBR/VBR flag of the MP3 command (src/index.ts lines 328-336):
`options.bitrate ? -b:a ${bitrate} : -q:a ${quality}` with
`bitrate = options.bitrate || '128k'` and `quality = options.quality ?? 4`
(every `SoundBitRate` string is truthy, so a supplied bitrate is always
used). -/
def mp3FlagArg (options : AudioOptions) : String :=
  match options.bitrate with
  | some b => "-b:a " ++ b.str
  | none => "-q:a " ++ toString (options.quality.getD 4)

/-- Source `const mono = options.mono ? '-ac 1' : ''` (src/index.ts line 330). -/
def mp3MonoArg (options : AudioOptions) : String :=
  if options.mono.getD false then "-ac 1" else ""

/-- The FFmpeg command of `compressMP3` (src/index.ts lines 334-336). -/
def mp3Command (ri : String) (options : AudioOptions) (ro : String) : String :=
  "ffmpeg -i " ++ quoteArg ri ++ " -c:a libmp3lame " ++ mp3FlagArg options
    ++ " " ++ mp3MonoArg options ++ " -y " ++ quoteArg ro

/-- Operation `compressMP3` (src/index.ts lines 309-355): resolve both paths,
`await fs.access(resolvedInputPath)` (existence only, no mode argument),
then the extension check
`resolvedInputPath.toLowerCase().endsWith('.mp3')`, then run FFmpeg and
stat the output. -/
def compressMP3 (env : Env) (inputPath outputPath : String)
    (options : AudioOptions) : Outcome :=
  let ri := env.resolve inputPath
  let ro := env.resolve outputPath
  if env.accessF ri = false then
    (.error (.accessError ri), [])
  else if strEndsWith (strToLower ri) ".mp3" = false then
    (.error (.validation mp3FormatMsg), [])
  else
    runAndMeasure env (mp3Command ri options ro) ro

/-! ## Concrete environments used by counterexamples and witnesses -/

/-- Environment in which no path exists (every `fs.access` variant rejects)
but the external tools and `fs.stat` would succeed. -/
def envNoInput : Env :=
  ⟨id, id, fun _ => false, fun _ => false, fun _ => false, fun _ => true, fun _ => some 1024⟩

/-- Environment in which every check and call succeeds; every stat reports
2048 bytes. -/
def envAllOk : Env :=
  ⟨id, id, fun _ => true, fun _ => true, fun _ => true, fun _ => true, fun _ => some 2048⟩

/-- Environment in which every path exists but none is readable; writes,
execution and stat succeed (stat reports 512 bytes). -/
def envUnreadable : Env :=
  ⟨id, id, fun _ => true, fun _ => false, fun _ => true, fun _ => true, fun _ => some 512⟩

/-- Every call of `runAndMeasure` spawns exactly its command. -/
theorem runAndMeasure_spawns (env : Env) (cmd ro : String) :
    (runAndMeasure env cmd ro).2 = [cmd] := by
  unfold runAndMeasure
  split
  · split <;> rfl
  · rfl

/-! ## C1 -/

/-- C1 (counterexample): the claim says `compressPDF` fails via an existence
check before any external process is spawned whenever the input path does
not exist.  In `envNoInput` the input `in.pdf` does not exist (`fs.access`
always rejects), yet `compressPDF` spawns the Ghostscript command and even
returns a success result: the code performs no existence check at all. -/
theorem compressPDF_no_existence_check_counterexample :
    envNoInput.accessF (envNoInput.resolve "in.pdf") = false ∧
    (compressPDF envNoInput "in.pdf" "out.pdf").2 = [gsCommand "in.pdf" "out.pdf"] ∧
    (compressPDF envNoInput "in.pdf" "out.pdf").1 =
      .ok ⟨"out.pdf", ((1024 : ℕ) : ℚ) / 1024⟩ :=
  ⟨rfl, rfl, rfl⟩

/-- C1 (amended): for every input path that does not exist, `compressVideo`
fails with the error of the existence check on the resolved input path
before any external process is spawned; `compressPDF` performs no input
validation and spawns the Ghostscript command unconditionally. -/
theorem video_existence_check_pdf_unvalidated (env : Env) (inp out : String)
    (o : VideoOptions) (h : env.accessF (env.resolve inp) = false) :
    compressVideo env inp out o = (.error (.accessError (env.resolve inp)), []) ∧
    (compressPDF env inp out).2 = [gsCommand (env.resolve inp) (env.resolve out)] := by
  constructor
  · simp [compressVideo, h]
  · exact runAndMeasure_spawns env (gsCommand (env.resolve inp) (env.resolve out))
      (env.resolve out)

/-- C1 (witness): the amended statement at a concrete nonexistent input. -/
theorem video_existence_check_pdf_unvalidated_witness :
    compressVideo envNoInput "a.mp4" "b.mp4" ⟨none, none, none, none, none⟩ =
      (.error (.accessError "a.mp4"), []) ∧
    (compressPDF envNoInput "a.mp4" "b.mp4").2 = [gsCommand "a.mp4" "b.mp4"] :=
  video_existence_check_pdf_unvalidated envNoInput "a.mp4" "b.mp4"
    ⟨none, none, none, none, none⟩ rfl

/-! ## C3 -/

/-- C3 (counterexample): the claim says every non-`.mp3` input is rejected
with the `Input file must be an MP3.` validation error before any spawn.
But `fs.access` (src/index.ts line 322) precedes the extension check (line
323): a nonexistent `.wav` input is rejected with the access error, not
the MP3 message. -/
theorem compressMP3_nonexistent_non_mp3_counterexample :
    envNoInput.accessF (envNoInput.resolve "a.wav") = false ∧
    (compressMP3 envNoInput "a.wav" "b.mp3" ⟨none, none, none⟩).1 =
      .error (.accessError "a.wav") ∧
    (compressMP3 envNoInput "a.wav" "b.mp3" ⟨none, none, none⟩).1 ≠
      .error (.validation mp3FormatMsg) :=
  ⟨rfl, rfl, fun h => absurd (Except.error.inj h) (by decide)⟩

/-- C3 (amended): for every input path whose resolved form does not end in
`.mp3` case-insensitively, `compressMP3` spawns no process and rejects;
whenever the input exists (so that the extension check is reached) the
rejection is exactly the `Input file must be an MP3.` validation error
(a nonexistent input rejects earlier, with the access error). -/
theorem compressMP3_rejects_non_mp3 (env : Env) (inp out : String)
    (o : AudioOptions)
    (h : strEndsWith (strToLower (env.resolve inp)) ".mp3" = false) :
    (compressMP3 env inp out o).2 = [] ∧
    ((compressMP3 env inp out o).1 = .error (.accessError (env.resolve inp)) ∨
      (compressMP3 env inp out o).1 = .error (.validation mp3FormatMsg)) ∧
    (env.accessF (env.resolve inp) = true →
      compressMP3 env inp out o = (.error (.validation mp3FormatMsg), [])) := by
  cases hF : env.accessF (env.resolve inp) with
  | false => refine ⟨?_, ?_, ?_⟩ <;> simp [compressMP3, hF, h]
  | true => refine ⟨?_, ?_, ?_⟩ <;> simp [compressMP3, hF, h]

/-- C3 (witness): a `.wav` input in an otherwise fully permissive
environment is rejected with the MP3 validation error and no spawn. -/
theorem compressMP3_rejects_non_mp3_witness :
    (compressMP3 envAllOk "a.wav" "b.mp3" ⟨none, none, none⟩).2 = [] ∧
    ((compressMP3 envAllOk "a.wav" "b.mp3" ⟨none, none, none⟩).1 =
        .error (.accessError (envAllOk.resolve "a.wav")) ∨
      (compressMP3 envAllOk "a.wav" "b.mp3" ⟨none, none, none⟩).1 =
        .error (.validation mp3FormatMsg)) ∧
    (envAllOk.accessF (envAllOk.resolve "a.wav") = true →
      compressMP3 envAllOk "a.wav" "b.mp3" ⟨none, none, none⟩ =
        (.error (.validation mp3FormatMsg), [])) :=
  compressMP3_rejects_non_mp3 envAllOk "a.wav" "b.mp3" ⟨none, none, none⟩ (by decide)

/-! ## C2 -/

/-- Any outcome of `runAndMeasure` is a success, an exec failure or a stat
failure - never a validation error. -/
theorem runAndMeasure_not_validation (env : Env) (cmd ro : String) (m : String) :
    (runAndMeasure env cmd ro).1 ≠ .error (.validation m) := by
  unfold runAndMeasure
  split
  · split <;> simp
  · simp

/-- The boolean format check holds exactly when the path ends,
case-insensitively, in one of the three supported extensions. -/
theorem supportedFormatsTest_eq_true (s : String) :
    supportedFormatsTest s = true ↔
      (strEndsWith (strToLower s) ".jpg" = true ∨
        strEndsWith (strToLower s) ".jpeg" = true ∨
        strEndsWith (strToLower s) ".png" = true) := by
  simp [supportedFormatsTest, Bool.or_eq_true, or_assoc]

/-- C2: inputs whose resolved path ends, case-insensitively, in `.jpg`,
`.jpeg` or `.png` pass the format check of both image operations (neither
can produce the unsupported-format error); every input with any other
extension is rejected by both with the
`Unsupported file format. Use JPG, JPEG, or PNG.` error - which names the
allowed set - before any process is spawned. -/
theorem image_format_check (env : Env) (inp out : String) (q lvl : Int) :
    ((strEndsWith (strToLower (env.resolve inp)) ".jpg" = true ∨
        strEndsWith (strToLower (env.resolve inp)) ".jpeg" = true ∨
        strEndsWith (strToLower (env.resolve inp)) ".png" = true) →
      (compressImageLossy env inp out q).1 ≠ .error (.validation unsupportedFormatMsg) ∧
      (compressImageLossless env inp out lvl).1 ≠ .error (.validation unsupportedFormatMsg)) ∧
    (¬ (strEndsWith (strToLower (env.resolve inp)) ".jpg" = true ∨
        strEndsWith (strToLower (env.resolve inp)) ".jpeg" = true ∨
        strEndsWith (strToLower (env.resolve inp)) ".png" = true) →
      compressImageLossy env inp out q = (.error (.validation unsupportedFormatMsg), []) ∧
      compressImageLossless env inp out lvl = (.error (.validation unsupportedFormatMsg), [])) := by
  constructor
  · intro h
    have hT : supportedFormatsTest (env.resolve inp) = true :=
      (supportedFormatsTest_eq_true _).mpr h
    constructor
    · simp only [compressImageLossy, hT, Bool.true_eq_false, if_false]
      split
      · simp
      · split
        · simp
        · apply runAndMeasure_not_validation
    · simp only [compressImageLossless, hT, Bool.true_eq_false, if_false]
      split
      · simp
      · split
        · simp
        · apply runAndMeasure_not_validation
  · intro h
    have hT : supportedFormatsTest (env.resolve inp) = false := by
      cases hc : supportedFormatsTest (env.resolve inp) with
      | false => rfl
      | true => exact absurd ((supportedFormatsTest_eq_true _).mp hc) h
    exact ⟨by simp [compressImageLossy, hT], by simp [compressImageLossless, hT]⟩

/-- C2 (witness): `a.JPG` (uppercase extension) passes the format check of
both image operations; `a.gif` is rejected by both with the
unsupported-format error and no spawned process. -/
theorem image_format_check_witness :
    ((compressImageLossy envAllOk "a.JPG" "b.jpg" 75).1 ≠
        .error (.validation unsupportedFormatMsg) ∧
      (compressImageLossless envAllOk "a.JPG" "b.jpg" 75).1 ≠
        .error (.validation unsupportedFormatMsg)) ∧
    (compressImageLossy envAllOk "a.gif" "b.jpg" 75 =
        (.error (.validation unsupportedFormatMsg), []) ∧
      compressImageLossless envAllOk "a.gif" "b.jpg" 75 =
        (.error (.validation unsupportedFormatMsg), [])) :=
  ⟨(image_format_check envAllOk "a.JPG" "b.jpg" 75 75).1 (by decide),
    (image_format_check envAllOk "a.gif" "b.jpg" 75 75).2 (by decide)⟩

/-! ## C5 -/

/-- C5 (counterexample): the claim says `compressMP3` fails with an I/O
error before any spawn when its input exists but is not readable.  In
`envUnreadable` every path exists and none is readable, yet `compressMP3`
spawns the FFmpeg command and returns success: its `fs.access` call has no
mode argument and checks existence only. -/
theorem compressMP3_unreadable_counterexample :
    envUnreadable.accessF (envUnreadable.resolve "a.mp3") = true ∧
    envUnreadable.accessR (envUnreadable.resolve "a.mp3") = false ∧
    (compressMP3 envUnreadable "a.mp3" "b.mp3" ⟨none, none, none⟩).2 =
      [mp3Command "a.mp3" ⟨none, none, none⟩ "b.mp3"] ∧
    (compressMP3 envUnreadable "a.mp3" "b.mp3" ⟨none, none, none⟩).1 =
      .ok ⟨"b.mp3", ((512 : ℕ) : ℚ) / 1024⟩ :=
  ⟨rfl, rfl, rfl, rfl⟩

/-- C5 (amended): an input that passes the image format check but is not
readable makes `compressImageLossy` and `compressImageLossless` fail with
the I/O error of the readability check before any process is spawned;
`compressMP3` validates existence only - its outcome does not depend on the
readability predicate at all. -/
theorem image_readability_check_mp3_existence_only (env : Env) (inp out : String)
    (q lvl : Int) (o : AudioOptions)
    (hfmt : supportedFormatsTest (env.resolve inp) = true)
    (hr : env.accessR (env.resolve inp) = false) :
    compressImageLossy env inp out q = (.error (.accessError (env.resolve inp)), []) ∧
    compressImageLossless env inp out lvl = (.error (.accessError (env.resolve inp)), []) ∧
    (∀ f g : String → Bool,
      compressMP3 { env with accessR := f } inp out o =
        compressMP3 { env with accessR := g } inp out o) := by
  refine ⟨?_, ?_, fun f g => rfl⟩
  · simp [compressImageLossy, hfmt, hr]
  · simp [compressImageLossless, hfmt, hr]

/-- C5 (witness): the amended statement at a concrete unreadable input. -/
theorem image_readability_check_mp3_existence_only_witness :
    compressImageLossy envUnreadable "a.jpg" "b.jpg" 75 =
      (.error (.accessError "a.jpg"), []) ∧
    compressMP3 { envUnreadable with accessR := fun _ => false } "a.jpg" "b.jpg"
        ⟨none, none, none⟩ =
      compressMP3 { envUnreadable with accessR := fun _ => true } "a.jpg" "b.jpg"
        ⟨none, none, none⟩ :=
  ⟨(image_readability_check_mp3_existence_only envUnreadable "a.jpg" "b.jpg" 75 75
      ⟨none, none, none⟩ (by decide) rfl).1,
    (image_readability_check_mp3_existence_only envUnreadable "a.jpg" "b.jpg" 75 75
      ⟨none, none, none⟩ (by decide) rfl).2.2 (fun _ => false) (fun _ => true)⟩

/-! ## Infix helpers for command texts -/

/-- Infix witness from an explicit decomposition of the character data. -/
theorem data_infix_of_eq (x c : String) (a b : List Char)
    (h : c.data = a ++ x.data ++ b) : x.data <:+: c.data :=
  ⟨a, b, h.symm⟩

/-- The scale argument is an infix of the H.264/H.265 command. -/
theorem scale_infix_mp4 (ri ro : String) (c : SupportedCodecs) (crf : Int)
    (p : VideoPresets) (f s : String) :
    s.data <:+: (mp4Command ri c crf p f s ro).data :=
  data_infix_of_eq s _
    (("\n        ffmpeg -i " ++ quoteArg ri ++ " " ++ "        -c:v " ++ c.str
      ++ " -crf " ++ toString crf ++ " -preset " ++ p.str ++ " "
      ++ "        -c:a aac -b:a 128k " ++ "        " ++ f ++ " ").data)
    ((" " ++ "        -movflags +faststart " ++ "        " ++ quoteArg ro
      ++ "\n      ").data)
    (by simp [mp4Command, String.data_append, List.append_assoc])

/-- The scale argument is an infix of the VP9 command. -/
theorem scale_infix_vp9 (ri ro : String) (crf : Int) (f s : String) :
    s.data <:+: (vp9Command ri crf f s ro).data :=
  data_infix_of_eq s _
    (("\n        ffmpeg -i " ++ quoteArg ri ++ " " ++ "        -c:v libvpx-vp9 -crf "
      ++ toString crf ++ " -b:v 0 " ++ "        -c:a libopus -b:a 128k "
      ++ "        " ++ f ++ " ").data)
    ((" " ++ "        " ++ quoteArg ro ++ "\n      ").data)
    (by simp [vp9Command, String.data_append, List.append_assoc])

/-- The crf flag text is an infix of the H.264/H.265 command. -/
theorem crf_infix_mp4 (ri ro : String) (c : SupportedCodecs) (crf : Int)
    (p : VideoPresets) (f s : String) :
    (" -crf " ++ toString crf).data <:+: (mp4Command ri c crf p f s ro).data :=
  data_infix_of_eq _ _
    (("\n        ffmpeg -i " ++ quoteArg ri ++ " " ++ "        -c:v " ++ c.str).data)
    ((" -preset " ++ p.str ++ " " ++ "        -c:a aac -b:a 128k " ++ "        "
      ++ f ++ " " ++ s ++ " " ++ "        -movflags +faststart " ++ "        "
      ++ quoteArg ro ++ "\n      ").data)
    (by simp [mp4Command, String.data_append, List.append_assoc])

/-- The crf flag text is an infix of the VP9 command. -/
theorem crf_infix_vp9 (ri ro : String) (crf : Int) (f s : String) :
    (" -crf " ++ toString crf).data <:+: (vp9Command ri crf f s ro).data :=
  data_infix_of_eq _ _
    (("\n        ffmpeg -i " ++ quoteArg ri ++ " " ++ "        -c:v libvpx-vp9").data)
    ((" -b:v 0 " ++ "        -c:a libopus -b:a 128k " ++ "        " ++ f ++ " "
      ++ s ++ " " ++ "        " ++ quoteArg ro ++ "\n      ").data)
    (by simp [vp9Command, String.data_append, List.append_assoc])

/-- With codec GIF, command synthesis yields the fixed palette command. -/
theorem buildVideoCommand_gif (ri ro : String) (o : VideoOptions)
    (h : o.codec = some .GIF) :
    buildVideoCommand ri ro o = gifFixedCommand ri ro := by
  simp [buildVideoCommand, h]

/-! ## C6 -/

/-- C6: with codec GIF, the synthesized FFmpeg command is the fixed
palette-generation command (15 fps, scale to 640 width with `-1` height and
lanczos resampling, palette generation and application, `-loop 0`); fps,
scale, crf and preset are ignored, so any two GIF option objects produce
the same command and the whole operation behaves identically on them. -/
theorem gif_command_fixed (env : Env) (inp out ri ro : String)
    (o₁ o₂ : VideoOptions) (h₁ : o₁.codec = some .GIF)
    (h₂ : o₂.codec = some .GIF) :
    buildVideoCommand ri ro o₁ = gifFixedCommand ri ro ∧
    buildVideoCommand ri ro o₂ = gifFixedCommand ri ro ∧
    compressVideo env inp out o₁ = compressVideo env inp out o₂ := by
  refine ⟨buildVideoCommand_gif ri ro o₁ h₁, buildVideoCommand_gif ri ro o₂ h₂, ?_⟩
  simp only [compressVideo]
  rw [buildVideoCommand_gif _ _ o₁ h₁, buildVideoCommand_gif _ _ o₂ h₂]

/-- C6 (witness): two GIF option objects that differ in every other field
synthesize the same fixed command. -/
theorem gif_command_fixed_witness :
    buildVideoCommand "a.mp4" "b.gif"
        ⟨some .GIF, some 0, some .ULTRAFAST, some 60, some ⟨some 1920, some 1080⟩⟩ =
      gifFixedCommand "a.mp4" "b.gif" ∧
    buildVideoCommand "a.mp4" "b.gif" ⟨some .GIF, none, none, none, none⟩ =
      gifFixedCommand "a.mp4" "b.gif" ∧
    compressVideo envAllOk "a.mp4" "b.gif"
        ⟨some .GIF, some 0, some .ULTRAFAST, some 60, some ⟨some 1920, some 1080⟩⟩ =
      compressVideo envAllOk "a.mp4" "b.gif" ⟨some .GIF, none, none, none, none⟩ :=
  gif_command_fixed envAllOk "a.mp4" "b.gif" "a.mp4" "b.gif"
    ⟨some .GIF, some 0, some .ULTRAFAST, some 60, some ⟨some 1920, some 1080⟩⟩
    ⟨some .GIF, none, none, none, none⟩ rfl rfl

/-! ## C7 -/

/-- The synthesized scale argument occurs in the command whenever the
defaulted codec is not GIF. -/
theorem scaleArg_infix_buildVideoCommand (ri ro : String) (o : VideoOptions)
    (hc : o.codec.getD .LIBX264 ≠ .GIF) :
    (videoScaleArg o.scale).data <:+: (buildVideoCommand ri ro o).data := by
  obtain ⟨codec, crf, preset, fps, scale⟩ := o
  cases codec with
  | none => exact scale_infix_mp4 ri ro .LIBX264 _ _ _ _
  | some c =>
    cases c with
    | LIBX264 => exact scale_infix_mp4 ri ro .LIBX264 _ _ _ _
    | LIBX265 => exact scale_infix_mp4 ri ro .LIBX265 _ _ _ _
    | VP9 => exact scale_infix_vp9 ri ro _ _ _
    | GIF => exact absurd rfl hc

/-- C7: when the scale option is present with exactly one dimension given,
the omitted dimension is encoded as `-1` in the synthesized scale filter,
and (for the non-GIF branches, the ones that use the option) the scale
filter text occurs in the synthesized command. -/
theorem scale_missing_dimension (ri ro : String) (o : VideoOptions)
    (w hgt : Int) (hc : o.codec.getD .LIBX264 ≠ .GIF) :
    (o.scale = some ⟨some w, none⟩ →
      videoScaleArg o.scale =
        "-vf scale=" ++ toString (jsNumOr (some w) (-1)) ++ ":-1") ∧
    (o.scale = some ⟨none, some hgt⟩ →
      videoScaleArg o.scale =
        "-vf scale=-1:" ++ toString (jsNumOr (some hgt) (-1))) ∧
    (videoScaleArg o.scale).data <:+: (buildVideoCommand ri ro o).data := by
  refine ⟨?_, ?_, scaleArg_infix_buildVideoCommand ri ro o hc⟩
  · intro hsc
    rw [hsc]
    refine String.ext ?_
    simp only [videoScaleArg, String.data_append, List.append_assoc,
      List.append_cancel_left_eq]
    decide
  · intro hsc
    rw [hsc]
    rfl

/-- C7 (witness): `scale: { width: 1280 }` yields exactly the filter
`-vf scale=1280:-1`, and that filter text occurs in the synthesized
command for the default codec. -/
theorem scale_missing_dimension_witness :
    videoScaleArg (some ⟨some 1280, none⟩) = "-vf scale=1280:-1" ∧
    (videoScaleArg (some ⟨some 1280, none⟩)).data <:+:
      (buildVideoCommand "a.mp4" "b.mp4"
        ⟨none, none, none, none, some ⟨some 1280, none⟩⟩).data :=
  ⟨((scale_missing_dimension "a.mp4" "b.mp4"
        ⟨none, none, none, none, some ⟨some 1280, none⟩⟩ 1280 0 (by decide)).1
      rfl).trans (by decide),
    (scale_missing_dimension "a.mp4" "b.mp4"
        ⟨none, none, none, none, some ⟨some 1280, none⟩⟩ 1280 0 (by decide)).2.2⟩

/-! ## C10 -/

/-- C10: an explicitly supplied `crf: 0` is honored (`?? 28/30` defaults
only when crf is absent): the synthesized non-GIF command contains
` -crf 0`.  By contrast a supplied scale width or height of `0` is falsy
for `||` and is encoded as `-1`, not `0`, in the scale filter. -/
theorem crf_zero_honored_scale_zero_encoded_neg1 (ri ro : String)
    (o : VideoOptions) (sw sh : Option Int) (hcrf : o.crf = some 0)
    (hc : o.codec.getD .LIBX264 ≠ .GIF) :
    (" -crf " ++ toString (0 : Int)).data <:+: (buildVideoCommand ri ro o).data ∧
    (o.scale = some ⟨some 0, sh⟩ →
      videoScaleArg o.scale = "-vf scale=-1:" ++ toString (jsNumOr sh (-1))) ∧
    (o.scale = some ⟨sw, some 0⟩ →
      videoScaleArg o.scale =
        "-vf scale=" ++ toString (jsNumOr sw (-1)) ++ ":" ++ "-1") := by
  refine ⟨?_, ?_, ?_⟩
  · obtain ⟨codec, crf, preset, fps, scale⟩ := o
    simp only at hcrf
    subst hcrf
    cases codec with
    | none => exact crf_infix_mp4 ri ro .LIBX264 _ _ _ _
    | some c =>
      cases c with
      | LIBX264 => exact crf_infix_mp4 ri ro .LIBX264 _ _ _ _
      | LIBX265 => exact crf_infix_mp4 ri ro .LIBX265 _ _ _ _
      | VP9 => exact crf_infix_vp9 ri ro _ _ _
      | GIF => exact absurd rfl hc
  · intro hsc
    rw [hsc]
    cases sh with
    | none => rfl
    | some n => rfl
  · intro hsc
    rw [hsc]
    cases sw with
    | none => rfl
    | some n => rfl

/-- C10 (witness): with `crf: 0` and `scale: { width: 0, height: 720 }`,
the command contains ` -crf 0` and the scale filter encodes width as
`-1`. -/
theorem crf_zero_honored_scale_zero_encoded_neg1_witness :
    (" -crf " ++ toString (0 : Int)).data <:+:
      (buildVideoCommand "a.mp4" "b.mp4"
        ⟨none, some 0, none, none, some ⟨some 0, some 720⟩⟩).data ∧
    videoScaleArg (some ⟨some 0, some 720⟩) =
      "-vf scale=-1:" ++ toString (jsNumOr (some 720) (-1)) :=
  ⟨(crf_zero_honored_scale_zero_encoded_neg1 "a.mp4" "b.mp4"
      ⟨none, some 0, none, none, some ⟨some 0, some 720⟩⟩ none (some 720) rfl
      (by decide)).1,
    (crf_zero_honored_scale_zero_encoded_neg1 "a.mp4" "b.mp4"
      ⟨none, some 0, none, none, some ⟨some 0, some 720⟩⟩ none (some 720) rfl
      (by decide)).2.1 rfl⟩

/-! ## C4 -/

/-- The mono argument is one of two fixed strings. -/
theorem mp3MonoArg_cases (o : AudioOptions) :
    mp3MonoArg o = "" ∨ mp3MonoArg o = "-ac 1" := by
  unfold mp3MonoArg
  split
  · exact .inr rfl
  · exact .inl rfl

/-- C4: an explicitly supplied bitrate selects constant-bitrate mode: the
flag section is `-b:a {bitrate}`, the command decomposes around it, and the
whole path-independent flag section contains no `-q:a`; with no bitrate the
flag is `-q:a {quality}` and quality defaults to 4 when unset. -/
theorem mp3_bitrate_quality_exclusive (ri ro : String) (o : AudioOptions) :
    (∀ b, o.bitrate = some b →
      mp3FlagArg o = "-b:a " ++ b.str ∧
      mp3Command ri o ro =
        "ffmpeg -i " ++ quoteArg ri ++ " -c:a libmp3lame " ++ ("-b:a " ++ b.str)
          ++ " " ++ mp3MonoArg o ++ " -y " ++ quoteArg ro ∧
      ¬ ("-q:a".data <:+:
          (" -c:a libmp3lame " ++ ("-b:a " ++ b.str) ++ " " ++ mp3MonoArg o
            ++ " -y ").data)) ∧
    (o.bitrate = none →
      mp3FlagArg o = "-q:a " ++ toString (o.quality.getD 4) ∧
      (o.quality = none → mp3FlagArg o = "-q:a " ++ toString (4 : Int))) := by
  constructor
  · intro b hb
    refine ⟨by simp [mp3FlagArg, hb], by simp [mp3Command, mp3FlagArg, hb], ?_⟩
    rcases mp3MonoArg_cases o with hm | hm <;> rw [hm] <;> cases b <;> decide
  · intro hb
    refine ⟨by simp [mp3FlagArg, hb], ?_⟩
    intro hq
    simp [mp3FlagArg, hb, hq]

/-- C4 (witness): the spec example `{ bitrate: 192k, quality: 5 }` selects
`-b:a 192k` with no `-q:a` flag; an empty options object selects
`-q:a 4`. -/
theorem mp3_bitrate_quality_exclusive_witness :
    (mp3FlagArg ⟨some .HIGH, some 5, none⟩ = "-b:a " ++ SoundBitRate.HIGH.str ∧
      mp3Command "a.mp3" ⟨some .HIGH, some 5, none⟩ "b.mp3" =
        "ffmpeg -i " ++ quoteArg "a.mp3" ++ " -c:a libmp3lame "
          ++ ("-b:a " ++ SoundBitRate.HIGH.str) ++ " "
          ++ mp3MonoArg ⟨some .HIGH, some 5, none⟩ ++ " -y " ++ quoteArg "b.mp3" ∧
      ¬ ("-q:a".data <:+:
          (" -c:a libmp3lame " ++ ("-b:a " ++ SoundBitRate.HIGH.str) ++ " "
            ++ mp3MonoArg ⟨some .HIGH, some 5, none⟩ ++ " -y ").data)) ∧
    (mp3FlagArg ⟨none, none, none⟩ =
        "-q:a " ++ toString ((⟨none, none, none⟩ : AudioOptions).quality.getD 4) ∧
      ((⟨none, none, none⟩ : AudioOptions).quality = none →
        mp3FlagArg ⟨none, none, none⟩ = "-q:a " ++ toString (4 : Int))) :=
  ⟨(mp3_bitrate_quality_exclusive "a.mp3" "b.mp3" ⟨some .HIGH, some 5, none⟩).1
      .HIGH rfl,
    (mp3_bitrate_quality_exclusive "a.mp3" "b.mp3" ⟨none, none, none⟩).2 rfl⟩

/-! ## C9 -/

/-- If `runAndMeasure` succeeds, the result holds the measured path and its
stat size divided by 1024. -/
theorem runAndMeasure_ok (env : Env) (cmd ro : String) (r : CompressResult)
    (h : (runAndMeasure env cmd ro).1 = .ok r) :
    r.outputPath = ro ∧
      ∃ sz, env.statSize ro = some sz ∧ r.compressedSizeKB = (sz : ℚ) / 1024 := by
  obtain ⟨rop, rkb⟩ := r
  cases hexec : env.execOk cmd with
  | false => simp [runAndMeasure, hexec] at h
  | true =>
    cases hsz : env.statSize ro with
    | none => simp [runAndMeasure, hexec, hsz] at h
    | some sz =>
      simp only [runAndMeasure, hexec, hsz, if_true] at h
      simp only [Except.ok.injEq, CompressResult.mk.injEq] at h
      obtain ⟨h1, h2⟩ := h
      subst h1
      subst h2
      exact ⟨rfl, sz, rfl, rfl⟩

/-- C9: whenever an operation succeeds, the returned `outputPath` is the
resolved output path and `compressedSizeKB` is the byte size reported by
`fs.stat` on that path divided by 1024 - for all five operations. -/
theorem result_measurement (env : Env) (inp out : String) (q lvl : Int)
    (vo : VideoOptions) (ao : AudioOptions) :
    (∀ r, (compressPDF env inp out).1 = .ok r →
      r.outputPath = env.resolve out ∧
        ∃ sz, env.statSize (env.resolve out) = some sz ∧
          r.compressedSizeKB = (sz : ℚ) / 1024) ∧
    (∀ r, (compressImageLossy env inp out q).1 = .ok r →
      r.outputPath = env.resolve out ∧
        ∃ sz, env.statSize (env.resolve out) = some sz ∧
          r.compressedSizeKB = (sz : ℚ) / 1024) ∧
    (∀ r, (compressImageLossless env inp out lvl).1 = .ok r →
      r.outputPath = env.resolve out ∧
        ∃ sz, env.statSize (env.resolve out) = some sz ∧
          r.compressedSizeKB = (sz : ℚ) / 1024) ∧
    (∀ r, (compressVideo env inp out vo).1 = .ok r →
      r.outputPath = env.resolve out ∧
        ∃ sz, env.statSize (env.resolve out) = some sz ∧
          r.compressedSizeKB = (sz : ℚ) / 1024) ∧
    (∀ r, (compressMP3 env inp out ao).1 = .ok r →
      r.outputPath = env.resolve out ∧
        ∃ sz, env.statSize (env.resolve out) = some sz ∧
          r.compressedSizeKB = (sz : ℚ) / 1024) := by
  refine ⟨?_, ?_, ?_, ?_, ?_⟩
  · intro r h
    exact runAndMeasure_ok env _ _ r h
  · intro r h
    simp only [compressImageLossy] at h
    split at h
    · simp at h
    · split at h
      · simp at h
      · split at h
        · simp at h
        · exact runAndMeasure_ok env _ _ r h
  · intro r h
    simp only [compressImageLossless] at h
    split at h
    · simp at h
    · split at h
      · simp at h
      · split at h
        · simp at h
        · exact runAndMeasure_ok env _ _ r h
  · intro r h
    simp only [compressVideo] at h
    split at h
    · simp at h
    · exact runAndMeasure_ok env _ _ r h
  · intro r h
    simp only [compressMP3] at h
    split at h
    · simp at h
    · split at h
      · simp at h
      · exact runAndMeasure_ok env _ _ r h

/-- C9 (witness): a successful PDF run in `envAllOk` (stat reports 2048
bytes) yields the stated measurement. -/
theorem result_measurement_witness :
    (⟨"b.pdf", ((2048 : ℕ) : ℚ) / 1024⟩ : CompressResult).outputPath =
        envAllOk.resolve "b.pdf" ∧
      ∃ sz, envAllOk.statSize (envAllOk.resolve "b.pdf") = some sz ∧
        (⟨"b.pdf", ((2048 : ℕ) : ℚ) / 1024⟩ : CompressResult).compressedSizeKB =
          (sz : ℚ) / 1024 :=
  (result_measurement envAllOk "a.pdf" "b.pdf" 75 75 ⟨none, none, none, none, none⟩
      ⟨none, none, none⟩).1 ⟨"b.pdf", ((2048 : ℕ) : ℚ) / 1024⟩ rfl

/-! ## C8: quote accounting and quoted path tokens -/

/-- Number of double-quote characters in a string. -/
def quoteCount (s : String) : Nat := s.data.count '"'

/-- quoteCount distributes over append. -/
theorem quoteCount_append (s t : String) :
    quoteCount (s ++ t) = quoteCount s + quoteCount t := by
  simp [quoteCount, List.count_append]

/-- Quoting adds exactly two quote characters. -/
theorem quoteCount_quoteArg (s : String) :
    quoteCount (quoteArg s) = quoteCount s + 2 := by
  unfold quoteArg
  rw [quoteCount_append, quoteCount_append]
  have h1 : quoteCount "\"" = 1 := by decide
  rw [h1]
  omega

/-- No digit character is a double quote. -/
theorem digitChar_ne_quote (n : Nat) : Nat.digitChar n ≠ '"' := by
  by_cases hlt : n < 16
  · interval_cases n <;> decide
  · have h0 : n ≠ 0 := by omega
    have h1 : n ≠ 1 := by omega
    have h2 : n ≠ 2 := by omega
    have h3 : n ≠ 3 := by omega
    have h4 : n ≠ 4 := by omega
    have h5 : n ≠ 5 := by omega
    have h6 : n ≠ 6 := by omega
    have h7 : n ≠ 7 := by omega
    have h8 : n ≠ 8 := by omega
    have h9 : n ≠ 9 := by omega
    have h10 : n ≠ 10 := by omega
    have h11 : n ≠ 11 := by omega
    have h12 : n ≠ 12 := by omega
    have h13 : n ≠ 13 := by omega
    have h14 : n ≠ 14 := by omega
    have h15 : n ≠ 15 := by omega
    simp only [Nat.digitChar, h0, h1, h2, h3, h4, h5, h6, h7, h8, h9, h10, h11,
      h12, h13, h14, h15, if_false]
    decide

/-- Auxiliary cons step for quote-freeness. -/
theorem not_mem_cons_of {c d : Char} {ds : List Char} (hd : d ≠ c)
    (h : c ∉ ds) : c ∉ d :: ds :=
  fun hmem => (List.mem_cons.mp hmem).elim (fun h1 => hd h1.symm) h

/-- The digit accumulator of `Nat.toDigitsCore` never introduces a quote. -/
theorem toDigitsCore_no_quote :
    ∀ (f n : Nat) (ds : List Char), '"' ∉ ds →
      '"' ∉ Nat.toDigitsCore 10 f n ds := by
  intro f
  induction f with
  | zero =>
    intro n ds h
    simpa [Nat.toDigitsCore] using h
  | succ f ih =>
    intro n ds h
    simp only [Nat.toDigitsCore]
    split
    · exact not_mem_cons_of (digitChar_ne_quote _) h
    · exact ih _ _ (not_mem_cons_of (digitChar_ne_quote _) h)

/-- Decimal representations of naturals contain no quote character. -/
theorem quoteCount_natRepr (n : Nat) : quoteCount (Nat.repr n) = 0 := by
  unfold quoteCount
  have h : '"' ∉ Nat.toDigits 10 n :=
    toDigitsCore_no_quote (n + 1) n [] (by simp)
  have hd : (Nat.repr n).data = Nat.toDigits 10 n := rfl
  rw [hd]
  exact List.count_eq_zero.mpr (by exact h)

/-- Decimal representations of integers contain no quote character. -/
theorem quoteCount_intToString (i : Int) : quoteCount (toString i) = 0 := by
  cases i with
  | ofNat m => exact quoteCount_natRepr m
  | negSucc m =>
    show quoteCount ("-" ++ toString (m + 1)) = 0
    rw [quoteCount_append]
    have h1 : quoteCount "-" = 0 := by decide
    have h2 : quoteCount (toString (m + 1)) = 0 := quoteCount_natRepr (m + 1)
    rw [h1, h2]

/-- Codec strings contain no quote character. -/
theorem quoteCount_codec_str (c : SupportedCodecs) : quoteCount c.str = 0 := by
  cases c <;> decide

/-- Preset strings contain no quote character. -/
theorem quoteCount_preset_str (p : VideoPresets) : quoteCount p.str = 0 := by
  cases p <;> decide

/-- Bitrate strings contain no quote character. -/
theorem quoteCount_bitrate_str (b : SoundBitRate) : quoteCount b.str = 0 := by
  cases b <;> decide

/-- The fps argument contains no quote character. -/
theorem quoteCount_videoFpsArg (fps : Option Int) :
    quoteCount (videoFpsArg fps) = 0 := by
  cases fps with
  | none => decide
  | some n =>
    simp only [videoFpsArg]
    split
    · decide
    · rw [quoteCount_append]
      have h1 : quoteCount "-r " = 0 := by decide
      have h2 : quoteCount (toString n) = 0 := quoteCount_intToString n
      rw [h1, h2]

/-- The scale argument contains no quote character. -/
theorem quoteCount_videoScaleArg (sc : Option ScaleOptions) :
    quoteCount (videoScaleArg sc) = 0 := by
  cases sc with
  | none => decide
  | some s =>
    simp only [videoScaleArg]
    rw [quoteCount_append, quoteCount_append, quoteCount_append]
    have h1 : quoteCount "-vf scale=" = 0 := by decide
    have h2 : quoteCount ":" = 0 := by decide
    have h3 : quoteCount (toString (jsNumOr s.width (-1))) = 0 :=
      quoteCount_intToString _
    have h4 : quoteCount (toString (jsNumOr s.height (-1))) = 0 :=
      quoteCount_intToString _
    omega

/-- The MP3 bitrate/quality flag contains no quote character. -/
theorem quoteCount_mp3FlagArg (o : AudioOptions) :
    quoteCount (mp3FlagArg o) = 0 := by
  cases hb : o.bitrate with
  | some b =>
    simp only [mp3FlagArg, hb]
    rw [quoteCount_append]
    have h1 : quoteCount "-b:a " = 0 := by decide
    have h2 : quoteCount b.str = 0 := quoteCount_bitrate_str b
    rw [h1, h2]
  | none =>
    simp only [mp3FlagArg, hb]
    rw [quoteCount_append]
    have h1 : quoteCount "-q:a " = 0 := by decide
    have h2 : quoteCount (toString (o.quality.getD 4)) = 0 := quoteCount_intToString _
    rw [h1, h2]

/-- The mono flag contains no quote character. -/
theorem quoteCount_mp3MonoArg (o : AudioOptions) :
    quoteCount (mp3MonoArg o) = 0 := by
  rcases mp3MonoArg_cases o with h | h <;> rw [h] <;> decide

/-- Quote count of the H.264/H.265 command: the two quoted paths only. -/
theorem quoteCount_mp4Command (ri : String) (c : SupportedCodecs) (crf : Int)
    (p : VideoPresets) (f s ro : String) :
    quoteCount (mp4Command ri c crf p f s ro) =
      quoteCount ri + quoteCount ro + quoteCount f + quoteCount s + 4 := by
  simp only [mp4Command, quoteCount_append, quoteCount_quoteArg]
  have h1 : quoteCount "\n        ffmpeg -i " = 0 := by decide
  have h2 : quoteCount " " = 0 := by decide
  have h3 : quoteCount "        -c:v " = 0 := by decide
  have h4 : quoteCount " -crf " = 0 := by decide
  have h5 : quoteCount " -preset " = 0 := by decide
  have h6 : quoteCount "        -c:a aac -b:a 128k " = 0 := by decide
  have h7 : quoteCount "        " = 0 := by decide
  have h8 : quoteCount "        -movflags +faststart " = 0 := by decide
  have h9 : quoteCount "\n      " = 0 := by decide
  have h10 : quoteCount c.str = 0 := quoteCount_codec_str c
  have h11 : quoteCount p.str = 0 := quoteCount_preset_str p
  have h12 : quoteCount (toString crf) = 0 := quoteCount_intToString crf
  omega

/-- Quote count of the VP9 command: the two quoted paths only. -/
theorem quoteCount_vp9Command (ri : String) (crf : Int) (f s ro : String) :
    quoteCount (vp9Command ri crf f s ro) =
      quoteCount ri + quoteCount ro + quoteCount f + quoteCount s + 4 := by
  simp only [vp9Command, quoteCount_append, quoteCount_quoteArg]
  have h1 : quoteCount "\n        ffmpeg -i " = 0 := by decide
  have h2 : quoteCount " " = 0 := by decide
  have h3 : quoteCount "        -c:v libvpx-vp9 -crf " = 0 := by decide
  have h4 : quoteCount " -b:v 0 " = 0 := by decide
  have h5 : quoteCount "        -c:a libopus -b:a 128k " = 0 := by decide
  have h6 : quoteCount "        " = 0 := by decide
  have h7 : quoteCount "\n      " = 0 := by decide
  have h8 : quoteCount (toString crf) = 0 := quoteCount_intToString crf
  omega

/-- Quote count of the GIF command: the two quoted paths plus the two
quotes around the fixed filter argument. -/
theorem quoteCount_gifFixedCommand (ri ro : String) :
    quoteCount (gifFixedCommand ri ro) = quoteCount ri + quoteCount ro + 6 := by
  simp only [gifFixedCommand, quoteCount_append, quoteCount_quoteArg]
  have h1 : quoteCount "\n        ffmpeg -i " = 0 := by decide
  have h2 : quoteCount " " = 0 := by decide
  have h3 : quoteCount "        -vf \"fps=15,scale=640:-1:flags=lanczos,split[s0][s1];[s0]palettegen[p];[s1][p]paletteuse\" " = 2 := by decide
  have h4 : quoteCount "        -loop 0 " = 0 := by decide
  have h5 : quoteCount "        " = 0 := by decide
  have h6 : quoteCount "\n      " = 0 := by decide
  omega

/-- Quote count of the whole synthesized video command. -/
theorem quoteCount_buildVideoCommand (ri ro : String) (vo : VideoOptions) :
    quoteCount (buildVideoCommand ri ro vo) =
      quoteCount ri + quoteCount ro +
        (if vo.codec.getD .LIBX264 = .GIF then 6 else 4) := by
  obtain ⟨codec, crf, preset, fps, scale⟩ := vo
  cases codec with
  | none =>
    show quoteCount (mp4Command ri .LIBX264
        (crf.getD (if SupportedCodecs.LIBX264 = SupportedCodecs.VP9 then 30 else 28))
        (preset.getD .MEDIUM) (videoFpsArg fps) (videoScaleArg scale) ro) =
      quoteCount ri + quoteCount ro + 4
    rw [quoteCount_mp4Command, quoteCount_videoFpsArg, quoteCount_videoScaleArg]
  | some c =>
    cases c with
    | LIBX264 =>
      show quoteCount (mp4Command ri .LIBX264
          (crf.getD (if SupportedCodecs.LIBX264 = SupportedCodecs.VP9 then 30 else 28))
          (preset.getD .MEDIUM) (videoFpsArg fps) (videoScaleArg scale) ro) =
        quoteCount ri + quoteCount ro + 4
      rw [quoteCount_mp4Command, quoteCount_videoFpsArg, quoteCount_videoScaleArg]
    | LIBX265 =>
      show quoteCount (mp4Command ri .LIBX265
          (crf.getD (if SupportedCodecs.LIBX265 = SupportedCodecs.VP9 then 30 else 28))
          (preset.getD .MEDIUM) (videoFpsArg fps) (videoScaleArg scale) ro) =
        quoteCount ri + quoteCount ro + 4
      rw [quoteCount_mp4Command, quoteCount_videoFpsArg, quoteCount_videoScaleArg]
    | VP9 =>
      show quoteCount (vp9Command ri
          (crf.getD (if SupportedCodecs.VP9 = SupportedCodecs.VP9 then 30 else 28))
          (videoFpsArg fps) (videoScaleArg scale) ro) =
        quoteCount ri + quoteCount ro + 4
      rw [quoteCount_vp9Command, quoteCount_videoFpsArg, quoteCount_videoScaleArg]
    | GIF =>
      show quoteCount (gifFixedCommand ri ro) = quoteCount ri + quoteCount ro + 6
      rw [quoteCount_gifFixedCommand]

/-- Quote count of the MP3 command: the two quoted paths only. -/
theorem quoteCount_mp3Command (ri : String) (o : AudioOptions) (ro : String) :
    quoteCount (mp3Command ri o ro) = quoteCount ri + quoteCount ro + 4 := by
  simp only [mp3Command, quoteCount_append, quoteCount_quoteArg]
  have h1 : quoteCount "ffmpeg -i " = 0 := by decide
  have h2 : quoteCount " -c:a libmp3lame " = 0 := by decide
  have h3 : quoteCount " " = 0 := by decide
  have h4 : quoteCount " -y " = 0 := by decide
  have h5 : quoteCount (mp3FlagArg o) = 0 := quoteCount_mp3FlagArg o
  have h6 : quoteCount (mp3MonoArg o) = 0 := quoteCount_mp3MonoArg o
  omega

/-- The quoted input token occurs in the H.264/H.265 command. -/
theorem quoted_input_infix_mp4 (ri ro : String) (c : SupportedCodecs) (crf : Int)
    (p : VideoPresets) (f s : String) :
    (quoteArg ri).data <:+: (mp4Command ri c crf p f s ro).data :=
  data_infix_of_eq _ _ ("\n        ffmpeg -i ".data)
    ((" " ++ "        -c:v " ++ c.str ++ " -crf " ++ toString crf ++ " -preset "
      ++ p.str ++ " " ++ "        -c:a aac -b:a 128k " ++ "        " ++ f ++ " "
      ++ s ++ " " ++ "        -movflags +faststart " ++ "        " ++ quoteArg ro
      ++ "\n      ").data)
    (by simp [mp4Command, String.data_append, List.append_assoc])

/-- The quoted output token occurs in the H.264/H.265 command. -/
theorem quoted_output_infix_mp4 (ri ro : String) (c : SupportedCodecs) (crf : Int)
    (p : VideoPresets) (f s : String) :
    (quoteArg ro).data <:+: (mp4Command ri c crf p f s ro).data :=
  data_infix_of_eq _ _
    (("\n        ffmpeg -i " ++ quoteArg ri ++ " " ++ "        -c:v " ++ c.str
      ++ " -crf " ++ toString crf ++ " -preset " ++ p.str ++ " "
      ++ "        -c:a aac -b:a 128k " ++ "        " ++ f ++ " " ++ s ++ " "
      ++ "        -movflags +faststart " ++ "        ").data)
    ("\n      ".data)
    (by simp [mp4Command, String.data_append, List.append_assoc])

/-- The quoted input token occurs in the VP9 command. -/
theorem quoted_input_infix_vp9 (ri ro : String) (crf : Int) (f s : String) :
    (quoteArg ri).data <:+: (vp9Command ri crf f s ro).data :=
  data_infix_of_eq _ _ ("\n        ffmpeg -i ".data)
    ((" " ++ "        -c:v libvpx-vp9 -crf " ++ toString crf ++ " -b:v 0 "
      ++ "        -c:a libopus -b:a 128k " ++ "        " ++ f ++ " " ++ s ++ " "
      ++ "        " ++ quoteArg ro ++ "\n      ").data)
    (by simp [vp9Command, String.data_append, List.append_assoc])

/-- The quoted output token occurs in the VP9 command. -/
theorem quoted_output_infix_vp9 (ri ro : String) (crf : Int) (f s : String) :
    (quoteArg ro).data <:+: (vp9Command ri crf f s ro).data :=
  data_infix_of_eq _ _
    (("\n        ffmpeg -i " ++ quoteArg ri ++ " " ++ "        -c:v libvpx-vp9 -crf "
      ++ toString crf ++ " -b:v 0 " ++ "        -c:a libopus -b:a 128k "
      ++ "        " ++ f ++ " " ++ s ++ " " ++ "        ").data)
    ("\n      ".data)
    (by simp [vp9Command, String.data_append, List.append_assoc])

/-- The quoted input token occurs in the GIF command. -/
theorem quoted_input_infix_gif (ri ro : String) :
    (quoteArg ri).data <:+: (gifFixedCommand ri ro).data :=
  data_infix_of_eq _ _ ("\n        ffmpeg -i ".data)
    ((" " ++ "        -vf \"fps=15,scale=640:-1:flags=lanczos,split[s0][s1];[s0]palettegen[p];[s1][p]paletteuse\" "
      ++ "        -loop 0 " ++ "        " ++ quoteArg ro ++ "\n      ").data)
    (by simp [gifFixedCommand, String.data_append, List.append_assoc])

/-- The quoted output token occurs in the GIF command. -/
theorem quoted_output_infix_gif (ri ro : String) :
    (quoteArg ro).data <:+: (gifFixedCommand ri ro).data :=
  data_infix_of_eq _ _
    (("\n        ffmpeg -i " ++ quoteArg ri ++ " "
      ++ "        -vf \"fps=15,scale=640:-1:flags=lanczos,split[s0][s1];[s0]palettegen[p];[s1][p]paletteuse\" "
      ++ "        -loop 0 " ++ "        ").data)
    ("\n      ".data)
    (by simp [gifFixedCommand, String.data_append, List.append_assoc])

/-- Both quoted path tokens occur in the synthesized video command. -/
theorem quoted_paths_infix_buildVideoCommand (ri ro : String) (vo : VideoOptions) :
    (quoteArg ri).data <:+: (buildVideoCommand ri ro vo).data ∧
    (quoteArg ro).data <:+: (buildVideoCommand ri ro vo).data := by
  obtain ⟨codec, crf, preset, fps, scale⟩ := vo
  cases codec with
  | none =>
    exact ⟨quoted_input_infix_mp4 ri ro .LIBX264 _ _ _ _,
      quoted_output_infix_mp4 ri ro .LIBX264 _ _ _ _⟩
  | some c =>
    cases c with
    | LIBX264 =>
      exact ⟨quoted_input_infix_mp4 ri ro .LIBX264 _ _ _ _,
        quoted_output_infix_mp4 ri ro .LIBX264 _ _ _ _⟩
    | LIBX265 =>
      exact ⟨quoted_input_infix_mp4 ri ro .LIBX265 _ _ _ _,
        quoted_output_infix_mp4 ri ro .LIBX265 _ _ _ _⟩
    | VP9 =>
      exact ⟨quoted_input_infix_vp9 ri ro _ _ _, quoted_output_infix_vp9 ri ro _ _ _⟩
    | GIF =>
      exact ⟨quoted_input_infix_gif ri ro, quoted_output_infix_gif ri ro⟩

/-- C8: each of the five synthesized commands embeds the two resolved paths
exactly as double-quoted tokens and nowhere else: the three single-line
commands decompose as fixed text around `quoteArg` of the two paths, the
video command contains both quoted tokens whatever the options, and for
every command the number of quote characters equals the quotes carried by
the paths themselves plus exactly the four token delimiters (six for the
GIF branch, whose fixed filter argument is itself quoted) - so no path text
is interpolated unquoted anywhere. -/
theorem paths_quoted (ri ro : String) (q lvl : Int) (vo : VideoOptions)
    (ao : AudioOptions) :
    (gsCommand ri ro =
        "gs -sDEVICE=pdfwrite -dCompatibilityLevel=1.4 -dPDFSETTINGS=/screen -dNOPAUSE -dQUIET -dBATCH -sOutputFile="
          ++ quoteArg ro ++ " " ++ quoteArg ri ∧
      quoteCount (gsCommand ri ro) = quoteCount ri + quoteCount ro + 4) ∧
    (magickLossyCommand ri q ro =
        "magick " ++ quoteArg ri ++ " -quality " ++ toString q ++ " -strip "
          ++ quoteArg ro ∧
      quoteCount (magickLossyCommand ri q ro) = quoteCount ri + quoteCount ro + 4) ∧
    (magickLosslessCommand ri lvl ro =
        "magick " ++ quoteArg ri ++ " -strip -define png:compression-level="
          ++ toString lvl ++ " " ++ quoteArg ro ∧
      quoteCount (magickLosslessCommand ri lvl ro) =
        quoteCount ri + quoteCount ro + 4) ∧
    ((quoteArg ri).data <:+: (buildVideoCommand ri ro vo).data ∧
      (quoteArg ro).data <:+: (buildVideoCommand ri ro vo).data ∧
      quoteCount (buildVideoCommand ri ro vo) =
        quoteCount ri + quoteCount ro +
          (if vo.codec.getD .LIBX264 = .GIF then 6 else 4)) ∧
    (mp3Command ri ao ro =
        "ffmpeg -i " ++ quoteArg ri ++ " -c:a libmp3lame " ++ mp3FlagArg ao
          ++ " " ++ mp3MonoArg ao ++ " -y " ++ quoteArg ro ∧
      quoteCount (mp3Command ri ao ro) = quoteCount ri + quoteCount ro + 4) := by
  refine ⟨⟨rfl, ?_⟩, ⟨rfl, ?_⟩, ⟨rfl, ?_⟩,
    ⟨(quoted_paths_infix_buildVideoCommand ri ro vo).1,
      (quoted_paths_infix_buildVideoCommand ri ro vo).2,
      quoteCount_buildVideoCommand ri ro vo⟩,
    ⟨rfl, quoteCount_mp3Command ri ao ro⟩⟩
  · unfold gsCommand
    simp only [quoteCount_append, quoteCount_quoteArg]
    have h1 : quoteCount "gs -sDEVICE=pdfwrite -dCompatibilityLevel=1.4 -dPDFSETTINGS=/screen -dNOPAUSE -dQUIET -dBATCH -sOutputFile=" = 0 := by decide
    have h2 : quoteCount " " = 0 := by decide
    omega
  · unfold magickLossyCommand
    simp only [quoteCount_append, quoteCount_quoteArg]
    have h1 : quoteCount "magick " = 0 := by decide
    have h2 : quoteCount " -quality " = 0 := by decide
    have h3 : quoteCount " -strip " = 0 := by decide
    have h4 : quoteCount (toString q) = 0 := quoteCount_intToString q
    omega
  · unfold magickLosslessCommand
    simp only [quoteCount_append, quoteCount_quoteArg]
    have h1 : quoteCount "magick " = 0 := by decide
    have h2 : quoteCount " -strip -define png:compression-level=" = 0 := by decide
    have h3 : quoteCount " " = 0 := by decide
    have h4 : quoteCount (toString lvl) = 0 := quoteCount_intToString lvl
    omega

end FileCompressor
